import Mathlib

set_option maxRecDepth 100000

/-!
Verification of the nearest-color-name lookup in
`src/hw/Assignment_8_color_names.py`: the palette `COLOR_NAME_DICT`
and the functions `get_closest_name_for_rgb_value` (single query) and
`get_closest_name_for_rgb` (batch).

Modelling choices:
* A Python dict literal with distinct keys preserves insertion order, so the
  palette is embedded as an ordered association list.
* RGB triples are integer triples; a query is likewise an integer triple
  (the list-indexed variant used by the error analysis takes `List ℤ`).
* The Python loop keeps `closest_dist = math.sqrt(red_dist + green_dist +
  blue_dist)` as a float, initialised to `-1`, and updates on the strict
  comparison `closest_dist < 0 or dist < closest_dist`.  The executable
  embedding keeps the *squared* distance in the accumulator (still
  initialised to `-1`); the relation `SqrtScan` below is the literal
  real-arithmetic semantics of the source loop, square root included, and
  a theorem below proves that any run of that semantics selects the same
  name as the squared-distance scan, which justifies the executable
  embedding.
-/

/-- A color as a red/green/blue triple, as in the Python lists `[r, g, b]`. -/
abbrev Rgb : Type := ℤ × ℤ × ℤ

/-- The web-color palette `COLOR_NAME_DICT` (source lines 4–145), in the
source's insertion order.  Python dicts iterate in insertion order, so this
ordered list is the faithful embedding of `COLOR_NAME_DICT.keys()` paired
with their values. -/
def COLOR_NAME_DICT : List (String × Rgb) := [
  ("MediumVioletRed", 199, 21, 133),
  ("DeepPink", 255, 20, 147),
  ("PaleVioletRed", 219, 112, 147),
  ("HotPink", 255, 105, 180),
  ("LightPink", 255, 182, 193),
  ("Pink", 255, 192, 203),
  ("DarkRed", 139, 0, 0),
  ("Red", 255, 0, 0),
  ("Firebrick", 178, 34, 34),
  ("Crimson", 220, 20, 60),
  ("IndianRed", 205, 92, 92),
  ("LightCoral", 240, 128, 128),
  ("Salmon", 250, 128, 114),
  ("DarkSalmon", 233, 150, 122),
  ("LightSalmon", 255, 160, 122),
  ("OrangeRed", 255, 69, 0),
  ("Tomato", 255, 99, 71),
  ("DarkOrange", 255, 140, 0),
  ("Coral", 255, 127, 80),
  ("Orange", 255, 165, 0),
  ("DarkKhaki", 189, 183, 107),
  ("Gold", 255, 215, 0),
  ("Khaki", 240, 230, 140),
  ("PeachPuff", 255, 218, 185),
  ("Yellow", 255, 255, 0),
  ("PaleGoldenrod", 238, 232, 170),
  ("Moccasin", 255, 228, 181),
  ("PapayaWhip", 255, 239, 213),
  ("LightGoldenrodYellow", 250, 250, 210),
  ("LemonChiffon", 255, 250, 205),
  ("LightYellow", 255, 255, 224),
  ("Maroon", 128, 0, 0),
  ("Brown", 165, 42, 42),
  ("SaddleBrown", 139, 69, 19),
  ("Sienna", 160, 82, 45),
  ("Chocolate", 210, 105, 30),
  ("DarkGoldenrod", 184, 134, 11),
  ("Peru", 205, 133, 63),
  ("RosyBrown", 188, 143, 143),
  ("Goldenrod", 218, 165, 32),
  ("SandyBrown", 244, 164, 96),
  ("Tan", 210, 180, 140),
  ("Burlywood", 222, 184, 135),
  ("Wheat", 245, 222, 179),
  ("NavajoWhite", 255, 222, 173),
  ("Bisque", 255, 228, 196),
  ("BlanchedAlmond", 255, 235, 205),
  ("Cornsilk", 255, 248, 220),
  ("Indigo", 75, 0, 130),
  ("Purple", 128, 0, 128),
  ("DarkMagenta", 139, 0, 139),
  ("DarkViolet", 148, 0, 211),
  ("DarkSlateBlue", 72, 61, 139),
  ("BlueViolet", 138, 43, 226),
  ("DarkOrchid", 153, 50, 204),
  ("Fuchsia", 255, 0, 255),
  ("Magenta", 255, 0, 255),
  ("SlateBlue", 106, 90, 205),
  ("MediumSlateBlue", 123, 104, 238),
  ("MediumOrchid", 186, 85, 211),
  ("MediumPurple", 147, 112, 219),
  ("Orchid", 218, 112, 214),
  ("Violet", 238, 130, 238),
  ("Plum", 221, 160, 221),
  ("Thistle", 216, 191, 216),
  ("Lavender", 230, 230, 250),
  ("MidnightBlue", 25, 25, 112),
  ("Navy", 0, 0, 128),
  ("DarkBlue", 0, 0, 139),
  ("MediumBlue", 0, 0, 205),
  ("Blue", 0, 0, 255),
  ("RoyalBlue", 65, 105, 225),
  ("SteelBlue", 70, 130, 180),
  ("DodgerBlue", 30, 144, 255),
  ("DeepSkyBlue", 0, 191, 255),
  ("CornflowerBlue", 100, 149, 237),
  ("SkyBlue", 135, 206, 235),
  ("LightSkyBlue", 135, 206, 250),
  ("LightSteelBlue", 176, 196, 222),
  ("LightBlue", 173, 216, 230),
  ("PowderBlue", 176, 224, 230),
  ("Teal", 0, 128, 128),
  ("DarkCyan", 0, 139, 139),
  ("LightSeaGreen", 32, 178, 170),
  ("CadetBlue", 95, 158, 160),
  ("DarkTurquoise", 0, 206, 209),
  ("MediumTurquoise", 72, 209, 204),
  ("Turquoise", 64, 224, 208),
  ("Aqua", 0, 255, 255),
  ("Cyan", 0, 255, 255),
  ("Aquamarine", 127, 255, 212),
  ("PaleTurquoise", 175, 238, 238),
  ("LightCyan", 224, 255, 255),
  ("DarkGreen", 0, 100, 0),
  ("Green", 0, 128, 0),
  ("DarkOliveGreen", 85, 107, 47),
  ("ForestGreen", 34, 139, 34),
  ("SeaGreen", 46, 139, 87),
  ("Olive", 128, 128, 0),
  ("OliveDrab", 107, 142, 35),
  ("MediumSeaGreen", 60, 179, 113),
  ("LimeGreen", 50, 205, 50),
  ("Lime", 0, 255, 0),
  ("SpringGreen", 0, 255, 127),
  ("MediumSpringGreen", 0, 250, 154),
  ("DarkSeaGreen", 143, 188, 143),
  ("MediumAquamarine", 102, 205, 170),
  ("YellowGreen", 154, 205, 50),
  ("LawnGreen", 124, 252, 0),
  ("Chartreuse", 127, 255, 0),
  ("LightGreen", 144, 238, 144),
  ("GreenYellow", 173, 255, 47),
  ("PaleGreen", 152, 251, 152),
  ("MistyRose", 255, 228, 225),
  ("AntiqueWhite", 250, 235, 215),
  ("Linen", 250, 240, 230),
  ("Beige", 245, 245, 220),
  ("WhiteSmoke", 245, 245, 245),
  ("LavenderBlush", 255, 240, 245),
  ("OldLace", 253, 245, 230),
  ("AliceBlue", 240, 248, 255),
  ("Seashell", 255, 245, 238),
  ("GhostWhite", 248, 248, 255),
  ("Honeydew", 240, 255, 240),
  ("FloralWhite", 255, 250, 240),
  ("Azure", 240, 255, 255),
  ("MintCream", 245, 255, 250),
  ("Snow", 255, 250, 250),
  ("Ivory", 255, 255, 240),
  ("White", 255, 255, 255),
  ("Black", 0, 0, 0),
  ("DarkSlateGray", 47, 79, 79),
  ("DimGray", 105, 105, 105),
  ("SlateGray", 112, 128, 144),
  ("Gray", 128, 128, 128),
  ("LightSlateGray", 119, 136, 153),
  ("DarkGray", 169, 169, 169),
  ("Silver", 192, 192, 192),
  ("LightGray", 211, 211, 211),
  ("Gainsboro", 220, 220, 220)
]

/-- The squared Euclidean distance `red_dist + green_dist + blue_dist`
computed in the loop body (source lines 157–159): componentwise differences,
each squared, then summed.  The source then takes `math.sqrt` of this sum
(line 160); see `euclid_dist` and `SqrtScan`. -/
def distSq (color_rgb_value rgb_value : Rgb) : ℤ :=
  (color_rgb_value.1 - rgb_value.1) ^ 2 +
  (color_rgb_value.2.1 - rgb_value.2.1) ^ 2 +
  (color_rgb_value.2.2 - rgb_value.2.2) ^ 2

/-- The Euclidean distance `math.sqrt(red_dist + green_dist + blue_dist)`
of source line 160, as a real number. -/
noncomputable def euclid_dist (color_rgb_value rgb_value : Rgb) : ℝ :=
  Real.sqrt ((distSq color_rgb_value rgb_value : ℤ) : ℝ)

/-- One iteration of the loop of `get_closest_name_for_rgb_value`
(source lines 154–164), with the accumulator `(closest_color, closest_dist)`
kept in squared-distance form: the update condition
`closest_dist < 0 or dist < closest_dist` (line 162) is evaluated on the
squared distance, a comparison proved equivalent to the source's comparison
of square roots (see `SqrtScan`). -/
def closestStep (rgb_value : Rgb) (acc : String × ℤ) (entry : String × Rgb) :
    String × ℤ :=
  if acc.2 < 0 ∨ distSq entry.2 rgb_value < acc.2
  then (entry.1, distSq entry.2 rgb_value)
  else acc

/-- `get_closest_name_for_rgb_value` with the global `COLOR_NAME_DICT`
generalised to an explicit palette parameter, body otherwise unchanged:
start from `closest_color = "No Color Found"`, `closest_dist = -1`
(source lines 152–153) and fold the loop body over the palette in order,
returning `closest_color` (line 166). -/
def get_closest_name_for_rgb_value_with (palette : List (String × Rgb))
    (rgb_value : Rgb) : String :=
  (palette.foldl (closestStep rgb_value) ("No Color Found", -1)).1

/-- The source's `get_closest_name_for_rgb_value`, which scans the global
`COLOR_NAME_DICT` (source lines 147–166). -/
def get_closest_name_for_rgb_value (rgb_value : Rgb) : String :=
  get_closest_name_for_rgb_value_with COLOR_NAME_DICT rgb_value

/-- The source's `get_closest_name_for_rgb` (lines 168–176): start from
`names = []` and append `get_closest_name_for_rgb_value(rgb_value)` for each
query in order. -/
def get_closest_name_for_rgb (rgb_value_array : List Rgb) : List String :=
  rgb_value_array.foldl
    (fun names rgb_value => names ++ [get_closest_name_for_rgb_value rgb_value])
    []

/-! ### The scan invariant -/

lemma distSq_nonneg (c q : Rgb) : 0 ≤ distSq c q := by
  unfold distSq
  positivity

/-- Folding the loop body over `l` from a nonnegative best-so-far squared
distance either keeps the accumulator (when no entry of `l` beats it
strictly) or ends at the first entry of `l` that attains the minimum over
`l` and strictly beats the accumulator. -/
lemma foldl_closestStep_spec (q : Rgb) :
    ∀ (l : List (String × Rgb)) (name : String) (d : ℤ), 0 ≤ d →
      (l.foldl (closestStep q) (name, d) = (name, d) ∧
        ∀ e2 ∈ l, d ≤ distSq e2.2 q) ∨
      (∃ l₁ e l₂, l = l₁ ++ e :: l₂ ∧
        l.foldl (closestStep q) (name, d) = (e.1, distSq e.2 q) ∧
        distSq e.2 q < d ∧
        (∀ e2 ∈ l, distSq e.2 q ≤ distSq e2.2 q) ∧
        (∀ e2 ∈ l₁, distSq e.2 q < distSq e2.2 q)) := by
  intro l
  induction l with
  | nil =>
    intro name d hd
    left
    exact ⟨rfl, by simp⟩
  | cons e l ih =>
    intro name d hd
    by_cases hlt : distSq e.2 q < d
    · have hstep : closestStep q (name, d) e = (e.1, distSq e.2 q) := by
        simp [closestStep, hlt]
      rcases ih e.1 (distSq e.2 q) (distSq_nonneg _ _) with
        ⟨heq, hmin⟩ | ⟨l₁, e1, l₂, hsplit, heq, hlt1, hmin, hstrict⟩
      · right
        refine ⟨[], e, l, rfl, ?_, hlt, ?_, by simp⟩
        · simpa [List.foldl_cons, hstep] using heq
        · intro e2 he2
          rcases List.mem_cons.mp he2 with h | h
          · rw [h]
          · exact hmin e2 h
      · right
        refine ⟨e :: l₁, e1, l₂, by rw [hsplit, List.cons_append], ?_, lt_trans hlt1 hlt, ?_, ?_⟩
        · simpa [List.foldl_cons, hstep] using heq
        · intro e2 he2
          rcases List.mem_cons.mp he2 with h | h
          · rw [h]; exact le_of_lt hlt1
          · exact hmin e2 h
        · intro e2 he2
          rcases List.mem_cons.mp he2 with h | h
          · rw [h]; exact hlt1
          · exact hstrict e2 h
    · have hstep : closestStep q (name, d) e = (name, d) := by
        have hcond : ¬ ((name, d).2 < 0 ∨ distSq e.2 q < (name, d).2) := by
          push_neg
          exact ⟨hd, not_lt.mp hlt⟩
        simp only [closestStep, if_neg hcond]
      rcases ih name d hd with
        ⟨heq, hmin⟩ | ⟨l₁, e1, l₂, hsplit, heq, hlt1, hmin, hstrict⟩
      · left
        refine ⟨by simpa [List.foldl_cons, hstep] using heq, ?_⟩
        intro e2 he2
        rcases List.mem_cons.mp he2 with h | h
        · rw [h]; exact not_lt.mp hlt
        · exact hmin e2 h
      · right
        refine ⟨e :: l₁, e1, l₂, by rw [hsplit, List.cons_append], ?_, hlt1, ?_, ?_⟩
        · simpa [List.foldl_cons, hstep] using heq
        · intro e2 he2
          rcases List.mem_cons.mp he2 with h | h
          · rw [h]; exact le_of_lt (lt_of_lt_of_le hlt1 (not_lt.mp hlt))
          · exact hmin e2 h
        · intro e2 he2
          rcases List.mem_cons.mp he2 with h | h
          · rw [h]; exact lt_of_lt_of_le hlt1 (not_lt.mp hlt)
          · exact hstrict e2 h

/-- On a non-empty palette the scan returns the name of the first entry
attaining the minimum squared distance: the palette splits around the
returned entry, every entry is at distance at least the returned one, and
every entry strictly before it is strictly farther. -/
lemma closest_scan_first_min (p : List (String × Rgb)) (q : Rgb) (hp : p ≠ []) :
    ∃ l₁ e l₂, p = l₁ ++ e :: l₂ ∧
      get_closest_name_for_rgb_value_with p q = e.1 ∧
      (∀ e2 ∈ p, distSq e.2 q ≤ distSq e2.2 q) ∧
      (∀ e2 ∈ l₁, distSq e.2 q < distSq e2.2 q) := by
  match p with
  | [] => exact absurd rfl hp
  | e0 :: l =>
    have hstep : closestStep q ("No Color Found", -1) e0 = (e0.1, distSq e0.2 q) := by
      simp [closestStep]
    rcases foldl_closestStep_spec q l e0.1 (distSq e0.2 q) (distSq_nonneg _ _) with
      ⟨heq, hmin⟩ | ⟨l₁, e1, l₂, hsplit, heq, hlt1, hmin, hstrict⟩
    · refine ⟨[], e0, l, rfl, ?_, ?_, by simp⟩
      · simp only [get_closest_name_for_rgb_value_with, List.foldl_cons, hstep, heq]
      · intro e2 he2
        rcases List.mem_cons.mp he2 with h | h
        · rw [h]
        · exact hmin e2 h
    · refine ⟨e0 :: l₁, e1, l₂, by rw [hsplit, List.cons_append], ?_, ?_, ?_⟩
      · simp only [get_closest_name_for_rgb_value_with, List.foldl_cons, hstep, heq]
      · intro e2 he2
        rcases List.mem_cons.mp he2 with h | h
        · rw [h]; exact le_of_lt hlt1
        · exact hmin e2 h
      · intro e2 he2
        rcases List.mem_cons.mp he2 with h | h
        · rw [h]; exact hlt1
        · exact hstrict e2 h

/-! ### The literal square-root semantics of the loop -/

/-- The literal real-arithmetic semantics of the loop of
`get_closest_name_for_rgb_value` (source lines 152–164): the accumulator
`(closest_color, closest_dist)` carries `closest_dist : ℝ` (initialised to
`-1` by the caller), the distance of line 160 is the square root of the sum
of squared component differences, and an entry is adopted exactly when
`closest_dist < 0 or dist < closest_dist` (line 162).
`SqrtScan q l acc out` relates the accumulator `acc` before scanning `l` to
the accumulator `out` after scanning it. -/
inductive SqrtScan (q : Rgb) :
    List (String × Rgb) → String × ℝ → String × ℝ → Prop where
  | nil (acc : String × ℝ) : SqrtScan q [] acc acc
  | cons_update {e : String × Rgb} {l : List (String × Rgb)}
      {acc out : String × ℝ}
      (h : acc.2 < 0 ∨ Real.sqrt ((distSq e.2 q : ℤ) : ℝ) < acc.2)
      (hrest : SqrtScan q l (e.1, Real.sqrt ((distSq e.2 q : ℤ) : ℝ)) out) :
      SqrtScan q (e :: l) acc out
  | cons_keep {e : String × Rgb} {l : List (String × Rgb)}
      {acc out : String × ℝ}
      (h : ¬ (acc.2 < 0 ∨ Real.sqrt ((distSq e.2 q : ℤ) : ℝ) < acc.2))
      (hrest : SqrtScan q l acc out) :
      SqrtScan q (e :: l) acc out

/-- The two constructors of `SqrtScan` have complementary guards, so the
relation is deterministic. -/
lemma sqrtScan_det {q : Rgb} :
    ∀ {l : List (String × Rgb)} {acc out out2 : String × ℝ},
      SqrtScan q l acc out → SqrtScan q l acc out2 → out = out2 := by
  intro l
  induction l with
  | nil =>
    intro acc out out2 h1 h2
    cases h1
    cases h2
    rfl
  | cons e l ih =>
    intro acc out out2 h1 h2
    cases h1 with
    | cons_update h hrest =>
      cases h2 with
      | cons_update h2c hrest2 => exact ih hrest hrest2
      | cons_keep h2c hrest2 => exact absurd h h2c
    | cons_keep h hrest =>
      cases h2 with
      | cons_update h2c hrest2 => exact absurd h2c h
      | cons_keep h2c hrest2 => exact ih hrest hrest2

/-- Interpretation of the squared-distance accumulator in the source's
real-valued accumulator: the initial `-1` stays `-1`, and a stored squared
distance is interpreted by its square root (line 160 of the source). -/
noncomputable def liftD (d : ℤ) : ℝ :=
  if d < 0 then (d : ℝ) else Real.sqrt ((d : ℤ) : ℝ)

/-- The executable squared-distance fold simulates the literal square-root
semantics step by step: `Real.sqrt` is strictly monotone on nonnegative
reals, so the guard of line 162 fires on square roots exactly when it fires
on the squared distances. -/
lemma sqrtScan_foldl (q : Rgb) :
    ∀ (l : List (String × Rgb)) (name : String) (d : ℤ), d = -1 ∨ 0 ≤ d →
      SqrtScan q l (name, liftD d)
        ((l.foldl (closestStep q) (name, d)).1,
          liftD (l.foldl (closestStep q) (name, d)).2) := by
  intro l
  induction l with
  | nil =>
    intro name d hd
    exact SqrtScan.nil _
  | cons e l ih =>
    intro name d hd
    have h0 : (0 : ℝ) ≤ ((distSq e.2 q : ℤ) : ℝ) := by
      exact_mod_cast distSq_nonneg e.2 q
    by_cases hc : d < 0 ∨ distSq e.2 q < d
    · have hstep : closestStep q (name, d) e = (e.1, distSq e.2 q) := by
        simp [closestStep, hc]
      have hlift : liftD (distSq e.2 q) = Real.sqrt ((distSq e.2 q : ℤ) : ℝ) := by
        rw [liftD, if_neg (not_lt.mpr (distSq_nonneg e.2 q))]
      have hcR : (name, liftD d).2 < 0 ∨
          Real.sqrt ((distSq e.2 q : ℤ) : ℝ) < (name, liftD d).2 := by
        rcases hd with hd | hd
        · left
          subst hd
          norm_num [liftD]
        · right
          have hdlt : distSq e.2 q < d := by
            rcases hc with hc | hc
            · exact absurd hc (not_lt.mpr hd)
            · exact hc
          have hdeq : liftD d = Real.sqrt ((d : ℤ) : ℝ) := by
            rw [liftD, if_neg (not_lt.mpr hd)]
          rw [hdeq]
          exact (Real.sqrt_lt_sqrt_iff h0).mpr (by exact_mod_cast hdlt)
      rw [List.foldl_cons, hstep]
      exact SqrtScan.cons_update hcR
        (hlift ▸ ih e.1 (distSq e.2 q) (Or.inr (distSq_nonneg e.2 q)))
    · push_neg at hc
      obtain ⟨hd0, hdle⟩ := hc
      have hd0n : 0 ≤ d := hd0
      have hstep : closestStep q (name, d) e = (name, d) := by
        have : ¬ ((name, d).2 < 0 ∨ distSq e.2 q < (name, d).2) := by
          push_neg
          exact ⟨hd0n, hdle⟩
        simp only [closestStep, if_neg this]
      have hdeq : liftD d = Real.sqrt ((d : ℤ) : ℝ) := by
        rw [liftD, if_neg (not_lt.mpr hd0n)]
      have hcR : ¬ ((name, liftD d).2 < 0 ∨
          Real.sqrt ((distSq e.2 q : ℤ) : ℝ) < (name, liftD d).2) := by
        push_neg
        constructor
        · rw [hdeq]
          exact Real.sqrt_nonneg _
        · rw [hdeq]
          exact Real.sqrt_le_sqrt (by exact_mod_cast hdle)
      rw [List.foldl_cons, hstep]
      exact SqrtScan.cons_keep hcR (ih name d hd)

/-! ### Queries as arbitrary Python lists -/

/-- The runtime error Python raises when a list index is out of range. -/
inductive PyErr : Type where
  | indexError : PyErr

/-- Python list indexing `xs[i]` for a nonnegative index: the element, or an
`IndexError` when the index is out of range. -/
def getIdx : List ℤ → ℕ → Except PyErr ℤ
  | [], _ => Except.error PyErr.indexError
  | v :: _, 0 => Except.ok v
  | _ :: xs, i + 1 => getIdx xs i

/-- The loop body's distance computation (source lines 157–160) on a query
that is an arbitrary integer list: the three query components are read by
index in order `rgb_value[0]`, `rgb_value[1]`, `rgb_value[2]`, raising
`IndexError` at the first missing one; extra components are never read.
The result is kept in squared form, as in `closestStep`. -/
def distSqL (color_rgb_value : Rgb) (rgb_value : List ℤ) : Except PyErr ℤ := do
  let q0 ← getIdx rgb_value 0
  let q1 ← getIdx rgb_value 1
  let q2 ← getIdx rgb_value 2
  pure ((color_rgb_value.1 - q0) ^ 2 + (color_rgb_value.2.1 - q1) ^ 2 +
    (color_rgb_value.2.2 - q2) ^ 2)

/-- One loop iteration of `get_closest_name_for_rgb_value` on a list query,
propagating a possible `IndexError` from the distance computation. -/
def closestStepL (rgb_value : List ℤ) (acc : String × ℤ)
    (entry : String × Rgb) : Except PyErr (String × ℤ) := do
  let d ← distSqL entry.2 rgb_value
  pure (if acc.2 < 0 ∨ d < acc.2 then (entry.1, d) else acc)

/-- `get_closest_name_for_rgb_value` on a query that is an arbitrary integer
list, palette explicit: the scan of source lines 152–166 with Python's
indexing errors made explicit in the result type. -/
def get_closest_list (palette : List (String × Rgb)) (rgb_value : List ℤ) :
    Except PyErr String := do
  let r ← palette.foldlM (closestStepL rgb_value) ("No Color Found", -1)
  pure r.1

/-- A query with at least three components never raises: each loop step on
such a query is the pure `closestStep` on the query's first three
components. -/
lemma foldlM_closestStepL_full (a b c : ℤ) (rest : List ℤ) :
    ∀ (l : List (String × Rgb)) (acc : String × ℤ),
      l.foldlM (closestStepL (a :: b :: c :: rest)) acc =
        Except.ok (l.foldl (closestStep (a, b, c)) acc) := by
  intro l
  induction l with
  | nil =>
    intro acc
    rfl
  | cons e l ih =>
    intro acc
    rw [List.foldlM_cons, List.foldl_cons]
    have hstep : closestStepL (a :: b :: c :: rest) acc e =
        Except.ok (closestStep (a, b, c) acc e) := rfl
    rw [hstep]
    exact ih (closestStep (a, b, c) acc e)

/-- A query with fewer than three components makes the distance computation
raise `IndexError`. -/
lemma distSqL_short (c : Rgb) (q : List ℤ) (h : q.length < 3) :
    distSqL c q = Except.error PyErr.indexError := by
  match q with
  | [] => rfl
  | [a] => rfl
  | [a, b] => rfl
  | a :: b :: c2 :: rest =>
    exfalso
    simp only [List.length_cons] at h
    omega

/-- On a non-empty palette, a query with fewer than three components makes
the whole scan raise `IndexError` at the first loop iteration. -/
lemma get_closest_list_short (e : String × Rgb) (p : List (String × Rgb))
    (q : List ℤ) (h : q.length < 3) :
    get_closest_list (e :: p) q = Except.error PyErr.indexError := by
  have hstep : closestStepL q ("No Color Found", -1) e =
      Except.error PyErr.indexError := by
    unfold closestStepL
    rw [distSqL_short e.2 q h]
    rfl
  unfold get_closest_list
  rw [List.foldlM_cons, hstep]
  rfl

/-! ### Claim theorems -/

/-- Claim C1: for every 3-component integer query color and every non-empty
palette, `get_closest_name_for_rgb_value` returns the name of some palette
entry, and that entry's reference color has Euclidean distance to the query
less than or equal to the distance from the query to every other palette
entry's reference color. -/
theorem resolve_returns_nearest_palette_name
    (palette : List (String × Rgb)) (q : Rgb) (hp : palette ≠ []) :
    ∃ e ∈ palette, get_closest_name_for_rgb_value_with palette q = e.1 ∧
      ∀ e2 ∈ palette, euclid_dist e.2 q ≤ euclid_dist e2.2 q := by
  obtain ⟨l₁, e, l₂, hsplit, hres, hmin, -⟩ := closest_scan_first_min palette q hp
  refine ⟨e, ?_, hres, ?_⟩
  · rw [hsplit]
    exact List.mem_append.mpr (Or.inr (List.mem_cons_self _ _))
  · intro e2 he2
    unfold euclid_dist
    exact Real.sqrt_le_sqrt (by exact_mod_cast hmin e2 he2)

/-- Witness for C1 at the fixed palette and the query `(1, 2, 3)`. -/
theorem resolve_returns_nearest_palette_name_witness :
    COLOR_NAME_DICT ≠ [] ∧
      ∃ e ∈ COLOR_NAME_DICT,
        get_closest_name_for_rgb_value_with COLOR_NAME_DICT (1, 2, 3) = e.1 ∧
        ∀ e2 ∈ COLOR_NAME_DICT, euclid_dist e.2 (1, 2, 3) ≤ euclid_dist e2.2 (1, 2, 3) :=
  ⟨by decide, resolve_returns_nearest_palette_name COLOR_NAME_DICT (1, 2, 3) (by decide)⟩

/-- Claim C2, corrected: on an empty palette the loop body never runs, so
`get_closest_name_for_rgb_value` returns the sentinel string
`"No Color Found"` for every query; no `EmptyPaletteError` (or any error)
exists in the code. -/
theorem empty_palette_returns_sentinel (q : Rgb) :
    get_closest_name_for_rgb_value_with [] q = "No Color Found" := rfl

/-- Counterexample to C2 as stated: with a zero-entry palette and the query
`(0, 0, 0)`, the call returns the placeholder value `"No Color Found"`
instead of raising anything. -/
theorem empty_palette_returns_sentinel_cex :
    get_closest_name_for_rgb_value_with [] (0, 0, 0) = "No Color Found" := rfl

/-- Witness for the corrected C2 at the query `(7, 8, 9)`. -/
theorem empty_palette_returns_sentinel_witness :
    get_closest_name_for_rgb_value_with [] (7, 8, 9) = "No Color Found" :=
  empty_palette_returns_sentinel (7, 8, 9)

/-- Claim C3: ties are broken by palette iteration order with a strict
less-than comparison: on any non-empty palette the scan returns the first
entry attaining the minimum distance (all strictly earlier entries are
strictly farther), and concretely the query `(255, 0, 255)` returns
`"Fuchsia"`, not the identically-valued later entry `"Magenta"`. -/
theorem tie_break_first_min_wins :
    (∀ (palette : List (String × Rgb)) (q : Rgb), palette ≠ [] →
      ∃ l₁ e l₂, palette = l₁ ++ e :: l₂ ∧
        get_closest_name_for_rgb_value_with palette q = e.1 ∧
        (∀ e2 ∈ palette, distSq e.2 q ≤ distSq e2.2 q) ∧
        (∀ e2 ∈ l₁, distSq e.2 q < distSq e2.2 q)) ∧
    get_closest_name_for_rgb_value (255, 0, 255) = "Fuchsia" :=
  ⟨closest_scan_first_min, by decide⟩

/-- Witness for C3 at the fixed palette and the tie query `(255, 0, 255)`. -/
theorem tie_break_first_min_wins_witness :
    COLOR_NAME_DICT ≠ [] ∧
      ∃ l₁ e l₂, COLOR_NAME_DICT = l₁ ++ e :: l₂ ∧
        get_closest_name_for_rgb_value_with COLOR_NAME_DICT (255, 0, 255) = e.1 ∧
        (∀ e2 ∈ COLOR_NAME_DICT, distSq e.2 (255, 0, 255) ≤ distSq e2.2 (255, 0, 255)) ∧
        (∀ e2 ∈ l₁, distSq e.2 (255, 0, 255) < distSq e2.2 (255, 0, 255)) :=
  ⟨by decide, tie_break_first_min_wins.1 COLOR_NAME_DICT (255, 0, 255) (by decide)⟩

/-- Claim C4: the batch function returns a sequence of the same length as
its input, and the element at every index is the single-query resolution of
the input element at that index (order preserved; out-of-range indices give
`none` on both sides). -/
theorem batch_preserves_length_and_order (xs : List Rgb) :
    (get_closest_name_for_rgb xs).length = xs.length ∧
    ∀ i : ℕ, (get_closest_name_for_rgb xs)[i]? =
      (xs[i]?).map get_closest_name_for_rgb_value := by
  have hmap : ∀ (l : List Rgb) (acc : List String),
      l.foldl (fun names v => names ++ [get_closest_name_for_rgb_value v]) acc =
        acc ++ l.map get_closest_name_for_rgb_value := by
    intro l
    induction l with
    | nil => intro acc; simp
    | cons v l ih => intro acc; simp [List.foldl_cons, ih]
  have hm : get_closest_name_for_rgb xs = xs.map get_closest_name_for_rgb_value := by
    unfold get_closest_name_for_rgb
    simpa using hmap xs []
  constructor
  · rw [hm, List.length_map]
  · intro i
    rw [hm, List.getElem?_map]

/-- Claim C5, corrected: the code performs no query validation and defines
no `InvalidQueryError`.  A query list with three or more components never
raises — it resolves by its first three components (extra components are
ignored) — and a query with fewer than three components raises `IndexError`
inside the first distance computation of the scan, not before it. -/
theorem query_arity_behavior :
    (∀ (palette : List (String × Rgb)) (a b c : ℤ) (rest : List ℤ),
      get_closest_list palette (a :: b :: c :: rest) =
        Except.ok (get_closest_name_for_rgb_value_with palette (a, b, c))) ∧
    (∀ (q : List ℤ), q.length < 3 →
      ∀ (e : String × Rgb) (p : List (String × Rgb)),
        get_closest_list (e :: p) q = Except.error PyErr.indexError) := by
  constructor
  · intro palette a b c rest
    unfold get_closest_list get_closest_name_for_rgb_value_with
    rw [foldlM_closestStepL_full]
    rfl
  · intro q hq e p
    exact get_closest_list_short e p q hq

/-- Counterexample to C5 as stated: the query `[5, 5, 5, 5]` has the wrong
arity (4 components, not 3), yet the call completes the full distance scan
and returns `"Black"` — no `InvalidQueryError` is raised. -/
theorem no_invalid_query_error_cex :
    get_closest_list COLOR_NAME_DICT [5, 5, 5, 5] = Except.ok "Black" := rfl

/-- Witness for the corrected C5: the one-component query `[5]` raises
`IndexError` on a one-entry palette. -/
theorem query_arity_behavior_witness :
    ([(5 : ℤ)] : List ℤ).length < 3 ∧
      get_closest_list [("Black", ((0 : ℤ), 0, 0))] [5] =
        Except.error PyErr.indexError :=
  ⟨by decide, query_arity_behavior.2 [5] (by decide) ("Black", (0, 0, 0)) []⟩

/-- Claim C6, corrected: the fixed palette has 140 entries (not 144 as
claimed), and against it the queries `(0,0,0)`, `(255,255,255)`,
`(255,0,0)` and `(1,1,1)` resolve to `"Black"`, `"White"`, `"Red"` and
`"Black"` respectively. -/
theorem fixed_palette_boundary_queries :
    COLOR_NAME_DICT.length = 140 ∧
    get_closest_name_for_rgb_value (0, 0, 0) = "Black" ∧
    get_closest_name_for_rgb_value (255, 255, 255) = "White" ∧
    get_closest_name_for_rgb_value (255, 0, 0) = "Red" ∧
    get_closest_name_for_rgb_value (1, 1, 1) = "Black" :=
  ⟨rfl, by decide, by decide, by decide, by decide⟩

/-- Counterexample to C6 as stated: the fixed palette does not have 144
entries. -/
theorem palette_not_144_entries_cex : COLOR_NAME_DICT.length ≠ 144 := by decide

/-- Claim C7: resolution is deterministic — resolving the identical query
twice in succession yields the identical name both times.  (Freedom from
side effects holds by construction: the embedding is a pure function of the
palette and the query.) -/
theorem resolve_deterministic (q : Rgb) :
    get_closest_name_for_rgb [q, q] =
      [get_closest_name_for_rgb_value q, get_closest_name_for_rgb_value q] := rfl

/-- Claim C8: the distance used by the scan is symmetric, both in squared
form and as the Euclidean distance of source line 160: swapping which color
is the query and which is the reference does not change any distance. -/
theorem dist_symm (a b : Rgb) :
    distSq a b = distSq b a ∧ euclid_dist a b = euclid_dist b a := by
  have h : distSq a b = distSq b a := by
    unfold distSq
    ring
  exact ⟨h, by unfold euclid_dist; rw [h]⟩

/-- Claim C9, corrected: the fixed palette has 140 keys (not 144 as
claimed); for every integer query the returned name is one of the palette's
keys, and the initial sentinel `"No Color Found"` is unreachable as a
return value. -/
theorem resolve_returns_palette_key :
    COLOR_NAME_DICT.length = 140 ∧
    ∀ q : Rgb, (∃ c, (get_closest_name_for_rgb_value q, c) ∈ COLOR_NAME_DICT) ∧
      get_closest_name_for_rgb_value q ≠ "No Color Found" := by
  refine ⟨rfl, ?_⟩
  intro q
  obtain ⟨l₁, e, l₂, hsplit, hres, -, -⟩ :=
    closest_scan_first_min COLOR_NAME_DICT q (by decide)
  have hmem : e ∈ COLOR_NAME_DICT := by
    rw [hsplit]
    exact List.mem_append.mpr (Or.inr (List.mem_cons_self _ _))
  have hname : get_closest_name_for_rgb_value q = e.1 := hres
  constructor
  · exact ⟨e.2, by rw [hname, Prod.mk.eta]; exact hmem⟩
  · rw [hname]
    have hall : ∀ x ∈ COLOR_NAME_DICT, x.1 ≠ "No Color Found" := by decide
    exact hall e hmem

/-- Counterexample to C9 as stated: the fixed palette does not have 144
key names. -/
theorem palette_size_cex : COLOR_NAME_DICT.length ≠ 144 := by decide

/-- Claim C10: taking the square root before comparison does not change the
selection.  Any run of `SqrtScan` — the literal semantics of the source
loop, which minimises the square root of the squared-component sum starting
from `closest_dist = -1` — returns the name computed by the executable scan
that compares squared distances directly. -/
theorem sqrt_scan_agrees_with_squared_scan
    (palette : List (String × Rgb)) (q : Rgb) (out : String × ℝ)
    (h : SqrtScan q palette ("No Color Found", -1) out) :
    out.1 = get_closest_name_for_rgb_value_with palette q := by
  have hinit : liftD (-1) = (-1 : ℝ) := by norm_num [liftD]
  have hrun := sqrtScan_foldl q palette "No Color Found" (-1) (Or.inl rfl)
  rw [hinit] at hrun
  rw [sqrtScan_det h hrun]
  rfl

/-- Witness for C10: a concrete one-step run of the square-root semantics on
a one-entry palette ends at the name the squared-distance scan computes. -/
theorem sqrt_scan_agrees_with_squared_scan_witness :
    ("A" : String) =
      get_closest_name_for_rgb_value_with [("A", ((0 : ℤ), 0, 0))] (0, 0, 0) :=
  sqrt_scan_agrees_with_squared_scan [("A", ((0 : ℤ), 0, 0))] (0, 0, 0)
    ("A", Real.sqrt ((distSq ((0 : ℤ), 0, 0) (0, 0, 0) : ℤ) : ℝ))
    (SqrtScan.cons_update (Or.inl (by norm_num)) (SqrtScan.nil _))
